import Mathlib

/-!
Shallow embedding of the club/event/attendance engine of `src/bot.py`
(a community chat-server bot).  The mutable global dictionary `club_data`
becomes the `Store` structure, Python dictionaries become association
lists over `String` keys, and `datetime` values become the `DateTime`
structure below.  Each operation of the source (event creation, event
listing, attendance start, the reaction handler, the reminder sweep, and
the save/load persistence pair) is translated into a pure function on
`Store`, and the theorems at the end of the file settle the claims of the
specification against those functions.
-/

/-- Calendar timestamp, the model of a Python `datetime` value.  The
source stores timestamps as `isoformat()` strings and re-parses them with
`fromisoformat` at every use, a round trip that is the identity, so the
model keeps the parsed fields themselves.  `strptime` with format
`%Y-%m-%d %H:%M` leaves the seconds field at `0`. -/
structure DateTime where
  year : Nat
  month : Nat
  day : Nat
  hour : Nat
  minute : Nat
  second : Nat
  deriving Repr, DecidableEq

/-- Numeric key for comparing `DateTime` values.  For field values inside
the calendar ranges that Python `datetime` enforces (month 1..12,
day 1..31, hour 0..23, minute and second 0..59) this is an order
embedding of the field-lexicographic order that Python uses to compare
`datetime` objects, because every weight exceeds the range of the fields
below it. -/
def DateTime.toSec (d : DateTime) : Nat :=
  d.second + 60 * (d.minute + 60 * (d.hour + 24 * (d.day + 32 * (d.month + 13 * d.year))))

/-- One entry of the static `CAMPUS_CLUBS` configuration table. -/
structure ClubInfo where
  name : String
  emoji : String
  color : Nat
  deriving Repr, DecidableEq

/-- The `CAMPUS_CLUBS` table of `src/bot.py`, the read-only club registry. -/
def CAMPUS_CLUBS : List (String × ClubInfo) :=
  [("debate", ⟨"Debate Club", "🎤", 0xff6b6b⟩),
   ("drama", ⟨"Drama Club", "🎭", 0x4ecdc4⟩),
   ("music", ⟨"Music Club", "🎵", 0x45b7d1⟩),
   ("art", ⟨"Art Club", "🎨", 0x96ceb4⟩),
   ("science", ⟨"Science Club", "🔬", 0xfeca57⟩),
   ("sports", ⟨"Sports Club", "⚽", 0xff9ff3⟩),
   ("literature", ⟨"Literature Club", "📚", 0x54a0ff⟩)]

/-- One value of `club_data['events']`: an event record as built by the
`create_event` command. -/
structure Event where
  club : String
  title : String
  description : String
  datetime : DateTime
  creator : String
  attendees : List String
  deriving Repr, DecidableEq

/-- One value of `club_data['attendance']`: an attendance session as
built by the `start_attendance` command.  The source stores no closed
flag; a session is closed only in the wall-clock sense that
`start_time + duration` minutes have elapsed. -/
structure Session where
  club : String
  start_time : DateTime
  duration : Nat
  present : List String
  deriving Repr, DecidableEq

/-- The process-wide mutable store `club_data` of `src/bot.py`,
restricted to the three collections the engine mutates: `events`,
`attendance` and `member_clubs`.  Python dictionaries preserve insertion
order, so each becomes an association list. -/
structure Store where
  events : List (String × Event)
  attendance : List (String × Session)
  member_clubs : List (String × List String)
  deriving Repr, DecidableEq

/-- Dictionary lookup, the model of `key in d` followed by `d[key]`. -/
def lookupA (k : String) : List (String × α) → Option α
  | [] => none
  | (k', v) :: rest => if k' = k then some v else lookupA k rest

/-- In-place update of the value stored under a key, the model of a
mutation such as `d[key]['attendees'].append(x)`. -/
def updAssoc (k : String) (f : α → α) : List (String × α) → List (String × α)
  | [] => []
  | (k', v) :: rest =>
      if k' = k then (k', f v) :: rest else (k', v) :: updAssoc k f rest

/-- Leap-year test used by `strptime` day-of-month validation. -/
def isLeap (y : Nat) : Bool :=
  (y % 4 == 0 && y % 100 != 0) || y % 400 == 0

/-- Number of days of a month, used by `strptime` day validation. -/
def daysInMonth (y m : Nat) : Nat :=
  if m == 2 then (if isLeap y then 29 else 28)
  else if m == 4 || m == 6 || m == 9 || m == 11 then 30
  else 31

/-- Greedy digit run of length at most `maxLen`, used to consume the
one-or-two-digit numeric directives `%m`, `%H`, `%M` of `strptime`. -/
def takeDigits (maxLen : Nat) : List Char → (List Char × List Char)
  | [] => ([], [])
  | c :: cs =>
      match maxLen with
      | 0 => ([], c :: cs)
      | n + 1 =>
          if c.isDigit then
            let (ds, rest) := takeDigits n cs
            (c :: ds, rest)
          else ([], c :: cs)

/-- Numeric value of a digit run. -/
def digitsToNat (ds : List Char) : Nat :=
  ds.foldl (fun acc c => acc * 10 + (c.toNat - 48)) 0

/-- Parse one numeric field of at most `maxLen` digits; fails when no
digit is present, as `strptime` does. -/
def parseField (maxLen : Nat) (cs : List Char) : Option (Nat × List Char) :=
  match takeDigits maxLen cs with
  | ([], _) => none
  | (ds, rest) => some (digitsToNat ds, rest)

/-- Consume one mandatory literal character of the format string. -/
def expectChar (c : Char) : List Char → Option (List Char)
  | [] => none
  | c' :: cs => if c' = c then some cs else none

/-- The character class of Python regex `\s` on text patterns: ASCII
whitespace and file/group/record/unit separators, next line, no-break
space, and the Unicode space separators. -/
def isWsChar (c : Char) : Bool :=
  (9 ≤ c.toNat && c.toNat ≤ 13) || (28 ≤ c.toNat && c.toNat ≤ 32) ||
    c.toNat == 133 || c.toNat == 160 || c.toNat == 5760 ||
    (8192 ≤ c.toNat && c.toNat ≤ 8202) || c.toNat == 8232 ||
    c.toNat == 8233 || c.toNat == 8239 || c.toNat == 8287 ||
    c.toNat == 12288

/-- Consume the `\s+` that a whitespace character of a `strptime` format
is compiled to: at least one whitespace character, greedily. -/
def skipWs1 : List Char → Option (List Char)
  | c :: cs => if isWsChar c then some (cs.dropWhile isWsChar) else none
  | [] => none

/-- Numeric value of one digit character. -/
def digitVal (c : Char) : Nat := c.toNat - 48

/-- The `%Y` directive: CPython compiles it to the regex `\d\d\d\d`,
exactly four digits. -/
def parseYear4 : List Char → Option (Nat × List Char)
  | c1 :: c2 :: c3 :: c4 :: rest =>
      if c1.isDigit && c2.isDigit && c3.isDigit && c4.isDigit then
        some (digitsToNat [c1, c2, c3, c4], rest)
      else none
  | _ => none

/-- The `%d` directive: CPython compiles it to
`3[01]|[12]\d|0[1-9]|[1-9]| [1-9]`, so besides one or two digits with
value 1..31 it accepts a single digit padded by one literal space. -/
def parseDay : List Char → Option (Nat × List Char)
  | ' ' :: c :: rest =>
      if '1' ≤ c ∧ c ≤ '9' then some (digitVal c, rest) else none
  | cs =>
      match parseField 2 cs with
      | some (d, rest) => if 1 ≤ d ∧ d ≤ 31 then some (d, rest) else none
      | none => none

/-- Model of `datetime.strptime(s, "%Y-%m-%d %H:%M")` as CPython
compiles this format: `%Y` is exactly four digits; `%m`, `%H` and `%M`
are one or two digits constrained by their regex alternations to 1..12,
0..23 and 0..59 — rendered here as a greedy two-digit-max field plus the
range check, which is equivalent in this format because each of these
directives is followed by a non-whitespace, non-digit literal, so the
regex can never backtrack a two-digit match into an accepting
single-digit one; `%d` additionally accepts a space-padded single
digit; the space of the format matches `\s+`; the `-` and `:` literals
match exactly; no characters may remain.  The surviving checks of the
`datetime` constructor are year at least 1 and day within the month
(leap years counted); unspecified fields (seconds) default to zero. -/
def parseDateTime (s : String) : Option DateTime := do
  let cs := s.toList
  let (y, cs) ← parseYear4 cs
  let cs ← expectChar '-' cs
  let (m, cs) ← parseField 2 cs
  let cs ← expectChar '-' cs
  let (d, cs) ← parseDay cs
  let cs ← skipWs1 cs
  let (hh, cs) ← parseField 2 cs
  let cs ← expectChar ':' cs
  let (mm, cs) ← parseField 2 cs
  if cs = [] ∧ 1 ≤ y ∧ 1 ≤ m ∧ m ≤ 12 ∧ 1 ≤ d ∧
      d ≤ daysInMonth y m ∧ hh ≤ 23 ∧ mm ≤ 59 then
    some ⟨y, m, d, hh, mm, 0⟩
  else
    none

/-- ASCII lowercase of one character, the effect of Python `str.lower`
on the ASCII command arguments this bot receives. -/
def lowerChar (c : Char) : Char :=
  if 'A' ≤ c ∧ c ≤ 'Z' then Char.ofNat (c.toNat + 32) else c

/-- Model of `club_key.lower()`.  Club keys are ASCII, where Python
`str.lower` is exactly the character-wise ASCII lowercase. -/
def lowerStr (s : String) : String := ⟨s.data.map lowerChar⟩

/-- Error outcomes of the engine operations, per the error taxonomy:
unknown club key, unparseable date/time, unknown event or session id. -/
inductive BotError where
  | invalidClub
  | invalidTimestamp
  | notFound
  deriving Repr, DecidableEq

deriving instance DecidableEq for Except

/-- Model of the `create_event` command body (src/bot.py lines 257-284):
lower-case the club key, reject unknown clubs, parse `"{date} {time}"`
with `strptime`, and on success append the new event under the id
`f"{club_key}_{len(club_data['events'])}"`.  The returned store is the
state of `club_data` after the call, so an error leaves it untouched. -/
def create_event (store : Store) (club_key title description date time creator : String) :
    Store × Except BotError String :=
  let ck := lowerStr club_key
  match lookupA ck CAMPUS_CLUBS with
  | none => (store, .error .invalidClub)
  | some _ =>
      match parseDateTime (date ++ " " ++ time) with
      | none => (store, .error .invalidTimestamp)
      | some dt =>
          let event_id := ck ++ "_" ++ toString store.events.length
          ({ store with
              events := store.events ++
                [(event_id, ⟨ck, title, description, dt, creator, []⟩)] },
           .ok event_id)

/-- Ascending order on stored events by scheduled time, the sort key
`lambda x: x[2]` of `list_events` (the third tuple component there is the
parsed `datetime` of the event). -/
def timeLE (a b : String × Event) : Prop :=
  a.2.datetime.toSec ≤ b.2.datetime.toSec

instance : DecidableRel timeLE := fun _ _ => Nat.decLe _ _

instance : IsTotal (String × Event) timeLE :=
  ⟨fun a b => Nat.le_total a.2.datetime.toSec b.2.datetime.toSec⟩

instance : IsTrans (String × Event) timeLE :=
  ⟨fun _ _ _ => Nat.le_trans⟩

/-- Model of the `list_events` command body (src/bot.py lines 305-337):
keep the events with `event_time > current_time`, optionally restricted
to one club (the supplied key lower-cased), sort ascending by scheduled
time with a stable sort, and render only the first ten.  Python's
`list.sort` is stable, as is `List.insertionSort`. -/
def list_events (events : List (String × Event)) (club_key : Option String)
    (current_time : DateTime) : List (String × Event) :=
  let upcoming := events.filter fun p =>
    decide (current_time.toSec < p.2.datetime.toSec) &&
      (match club_key with
       | none => true
       | some c => p.2.club == lowerStr c)
  (List.insertionSort timeLE upcoming).take 10

/-- Two-digit zero-padded decimal, as in `strftime` directives `%m`,
`%d`, `%H`, `%M`, `%S`. -/
def pad2 (n : Nat) : String :=
  if n < 10 then "0" ++ toString n else toString n

/-- Four-digit zero-padded decimal, as in the `strftime` directive `%Y`. -/
def pad4 (n : Nat) : String :=
  if n < 10 then "000" ++ toString n
  else if n < 100 then "00" ++ toString n
  else if n < 1000 then "0" ++ toString n
  else toString n

/-- Model of `datetime.now().strftime('%Y%m%d_%H%M%S')`, the timestamp
part of a session id. -/
def fmtSessionTime (d : DateTime) : String :=
  pad4 d.year ++ pad2 d.month ++ pad2 d.day ++ "_" ++
    pad2 d.hour ++ pad2 d.minute ++ pad2 d.second

/-- Model of the `start_attendance` command body (src/bot.py lines
383-432): the `duration` parameter defaults to `5` when the caller
passes none (the Python default argument `duration: int = 5`); unknown
clubs are rejected; otherwise a fresh session with an empty present set
is stored under `f"{club_key}_{now:%Y%m%d_%H%M%S}"`.  The wall-clock
auto-close that follows only re-renders the announcement message; it
touches no stored collection, so it is absent from the state model. -/
def start_attendance (store : Store) (now : DateTime) (club_key : String)
    (duration : Option Nat) : Store × Except BotError String :=
  let dur := duration.getD 5
  let ck := lowerStr club_key
  match lookupA ck CAMPUS_CLUBS with
  | none => (store, .error .invalidClub)
  | some _ =>
      let session_id := ck ++ "_" ++ fmtSessionTime now
      ({ store with
          attendance := store.attendance ++ [(session_id, ⟨ck, now, dur, []⟩)] },
       .ok session_id)

/-- Correlation token recovered from the footer text of the embed of the
message that was reacted to: `"Event ID: X"` yields `eventTag X`,
`"Session ID: Y"` yields `sessionTag Y`, and a message with no embed or
no recognizable footer label yields `noTag`. -/
inductive FooterTok where
  | eventTag (id : String)
  | sessionTag (id : String)
  | noTag
  deriving Repr, DecidableEq

/-- Inbound reaction signal: the emoji reacted with, and the correlation
token carried by the message's embed footer. -/
structure ReactionSig where
  emoji : String
  footer : FooterTok
  deriving Repr, DecidableEq

/-- Identity of the reacting user: the `user.bot` flag and `str(user.id)`. -/
structure UserSig where
  is_bot : Bool
  id : String
  deriving Repr, DecidableEq

/-- Append a member to an event's attendee list unless already present,
the body of the RSVP branch of `on_reaction_add`. -/
def add_attendee (e : Event) (uid : String) : Event :=
  if uid ∈ e.attendees then e else { e with attendees := e.attendees ++ [uid] }

/-- Append a member to a session's present list unless already present,
the body of the attendance branch of `on_reaction_add`.  The source
checks nothing about the session being closed. -/
def mark_present (s : Session) (uid : String) : Session :=
  if uid ∈ s.present then s else { s with present := s.present ++ [uid] }

/-- Model of the `on_reaction_add` handler (src/bot.py lines 436-459):
bot reactors are ignored, only the check-mark emoji on a message with an
embed is handled, an `Event ID:` footer routes to the event RSVP update,
a `Session ID:` footer routes to the attendance update, and an unknown
id or unrecognized footer leaves the store untouched. -/
def on_reaction_add (store : Store) (r : ReactionSig) (u : UserSig) : Store :=
  if u.is_bot then store
  else if r.emoji = "✅" then
    match r.footer with
    | .eventTag event_id =>
        match lookupA event_id store.events with
        | some _ =>
            { store with
                events := updAssoc event_id (fun e => add_attendee e u.id) store.events }
        | none => store
    | .sessionTag session_id =>
        match lookupA session_id store.attendance with
        | some _ =>
            { store with
                attendance :=
                  updAssoc session_id (fun s => mark_present s u.id) store.attendance }
        | none => store
    | .noTag => store
  else store

/-- The reminder-window test of `check_reminders`:
`current_time < event_time <= current_time + timedelta(hours=1)`. -/
def eventNeedsReminder (current_time : DateTime) (e : Event) : Bool :=
  decide (current_time.toSec < e.datetime.toSec) &&
    decide (e.datetime.toSec ≤ current_time.toSec + 3600)

/-- Model of one sweep of the `check_reminders` task (src/bot.py lines
463-486): the ids of the events a reminder notification is triggered
for, paired with the store after the sweep.  The source records nothing
about having sent a reminder — no field of `club_data` is written — so
the returned store is the input store, visibly unchanged. -/
def check_reminders (store : Store) (current_time : DateTime) :
    Store × List String :=
  (store, (store.events.filter (fun p => eventNeedsReminder current_time p.2)).map Prod.fst)

/-- Abstract JSON document, the image of `json.dump` / `json.load` on the
data this program stores: strings, non-negative integers, arrays and
objects (Python dictionaries, insertion-ordered). -/
inductive Jx where
  | str (s : String)
  | num (n : Nat)
  | arr (xs : List Jx)
  | obj (fields : List (String × Jx))

/-- Serialized form of a timestamp.  The source stores the `isoformat()`
string of the `datetime`; that string determines and is determined by
the six calendar fields, so the model serializes the fields. -/
def encDT (d : DateTime) : Jx :=
  .obj [("year", .num d.year), ("month", .num d.month), ("day", .num d.day),
        ("hour", .num d.hour), ("minute", .num d.minute), ("second", .num d.second)]

/-- Deserialize a timestamp written by `encDT`, the model of
`datetime.fromisoformat` on a stored timestamp string. -/
def decDT : Jx → Option DateTime
  | .obj [("year", .num y), ("month", .num m), ("day", .num d),
          ("hour", .num hh), ("minute", .num mm), ("second", .num ss)] =>
      some ⟨y, m, d, hh, mm, ss⟩
  | _ => none

/-- Serialize a list of member-id strings. -/
def encStrList (l : List String) : Jx := .arr (l.map .str)

/-- Deserialize one JSON string. -/
def decStr : Jx → Option String
  | .str s => some s
  | _ => none

/-- Deserialize every element of a JSON array, failing if any element
fails. -/
def optMapList (g : Jx → Option α) : List Jx → Option (List α)
  | [] => some []
  | x :: xs =>
      match g x, optMapList g xs with
      | some a, some ys => some (a :: ys)
      | _, _ => none

/-- Deserialize a list of member-id strings. -/
def decStrList : Jx → Option (List String)
  | .arr xs => optMapList decStr xs
  | _ => none

/-- Serialize an event record with the field layout `create_event`
writes. -/
def encEvent (e : Event) : Jx :=
  .obj [("club", .str e.club), ("title", .str e.title),
        ("description", .str e.description), ("datetime", encDT e.datetime),
        ("creator", .str e.creator), ("attendees", encStrList e.attendees)]

/-- Deserialize an event record written by `encEvent`. -/
def decEvent : Jx → Option Event
  | .obj [("club", .str c), ("title", .str t), ("description", .str d),
          ("datetime", dtj), ("creator", .str cr), ("attendees", aj)] =>
      match decDT dtj, decStrList aj with
      | some dt, some atts => some ⟨c, t, d, dt, cr, atts⟩
      | _, _ => none
  | _ => none

/-- Serialize a session record with the field layout `start_attendance`
writes. -/
def encSession (s : Session) : Jx :=
  .obj [("club", .str s.club), ("start_time", encDT s.start_time),
        ("duration", .num s.duration), ("present", encStrList s.present)]

/-- Deserialize a session record written by `encSession`. -/
def decSession : Jx → Option Session
  | .obj [("club", .str c), ("start_time", stj),
          ("duration", .num dur), ("present", pj)] =>
      match decDT stj, decStrList pj with
      | some st, some pres => some ⟨c, st, dur, pres⟩
      | _, _ => none
  | _ => none

/-- Serialize a string-keyed dictionary, value by value. -/
def encAssoc (f : α → Jx) (l : List (String × α)) : Jx :=
  .obj (l.map fun p => (p.1, f p.2))

/-- Deserialize the fields of a string-keyed dictionary, value by
value. -/
def decFields (g : Jx → Option α) : List (String × Jx) → Option (List (String × α))
  | [] => some []
  | (k, v) :: rest =>
      match g v, decFields g rest with
      | some a, some l => some ((k, a) :: l)
      | _, _ => none

/-- Deserialize a string-keyed dictionary written by `encAssoc`. -/
def decAssoc (g : Jx → Option α) : Jx → Option (List (String × α))
  | .obj fs => decFields g fs
  | _ => none

/-- Model of `save_data` (src/bot.py lines 48-54): the JSON document
`json.dump` writes to `bot_data.json` for the three engine collections.
The file itself is a faithful channel for the document, so the model
returns the document. -/
def save_data (store : Store) : Jx :=
  .obj [("events", encAssoc encEvent store.events),
        ("attendance", encAssoc encSession store.attendance),
        ("member_clubs", encAssoc encStrList store.member_clubs)]

/-- Model of `load_data` (src/bot.py lines 56-64): rebuild the store
from the document read back from `bot_data.json`; a document that does
not have the saved layout yields no store (the source then logs and
keeps the defaults). -/
def load_data : Jx → Option Store
  | .obj [("events", ej), ("attendance", aj), ("member_clubs", mj)] =>
      match decAssoc decEvent ej, decAssoc decSession aj,
          decAssoc decStrList mj with
      | some evs, some sess, some mem => some ⟨evs, sess, mem⟩
      | _, _, _ => none
  | _ => none

/-! Association-list lemmas shared by the theorems below. -/

theorem lookupA_updAssoc_self (k : String) (f : α → α) :
    ∀ l : List (String × α), lookupA k (updAssoc k f l) = (lookupA k l).map f
  | [] => rfl
  | (k', v) :: rest => by
      by_cases h : k' = k
      · simp [lookupA, updAssoc, h]
      · simp [lookupA, updAssoc, h, lookupA_updAssoc_self k f rest]

theorem lookupA_updAssoc_ne (k k' : String) (hne : k' ≠ k) (f : α → α) :
    ∀ l : List (String × α), lookupA k' (updAssoc k f l) = lookupA k' l
  | [] => rfl
  | (k'', v) :: rest => by
      by_cases h : k'' = k
      · subst h
        have hx : k'' ≠ k' := fun hc => hne hc.symm
        simp [lookupA, updAssoc, hx]
      · simp [lookupA, updAssoc, h, lookupA_updAssoc_ne k k' hne f rest]

theorem updAssoc_updAssoc (k : String) (f g : α → α) :
    ∀ l : List (String × α),
      updAssoc k f (updAssoc k g l) = updAssoc k (fun v => f (g v)) l
  | [] => rfl
  | (k', v) :: rest => by
      by_cases h : k' = k
      · simp [updAssoc, h]
      · simp [updAssoc, h, updAssoc_updAssoc k f g rest]

theorem add_attendee_mem (e : Event) (uid : String) :
    uid ∈ (add_attendee e uid).attendees := by
  unfold add_attendee
  by_cases h : uid ∈ e.attendees
  · simp [h]
  · simp [h]

theorem add_attendee_idem (e : Event) (uid : String) :
    add_attendee (add_attendee e uid) uid = add_attendee e uid := by
  have h := add_attendee_mem e uid
  rw [add_attendee, if_pos h]

theorem mark_present_mem (s : Session) (uid : String) :
    uid ∈ (mark_present s uid).present := by
  unfold mark_present
  by_cases h : uid ∈ s.present
  · simp [h]
  · simp [h]

theorem mark_present_idem (s : Session) (uid : String) :
    mark_present (mark_present s uid) uid = mark_present s uid := by
  have h := mark_present_mem s uid
  rw [mark_present, if_pos h]

theorem on_reaction_add_idem (store : Store) (r : ReactionSig) (u : UserSig) :
    on_reaction_add (on_reaction_add store r u) r u = on_reaction_add store r u := by
  by_cases hb : u.is_bot = true
  · simp [on_reaction_add, hb]
  · by_cases he : r.emoji = "✅"
    · cases hf : r.footer with
      | eventTag eid =>
          cases hl : lookupA eid store.events with
          | none =>
              have h1 : on_reaction_add store r u = store := by
                simp [on_reaction_add, hb, he, hf, hl]
              rw [h1, h1]
          | some e =>
              have h1 : on_reaction_add store r u =
                  { store with
                      events := updAssoc eid (fun x => add_attendee x u.id) store.events } := by
                simp [on_reaction_add, hb, he, hf, hl]
              have h2 : lookupA eid (updAssoc eid (fun x => add_attendee x u.id) store.events) =
                  some (add_attendee e u.id) := by
                rw [lookupA_updAssoc_self, hl]; rfl
              have h3 : (fun v => add_attendee (add_attendee v u.id) u.id) =
                  (fun v => add_attendee v u.id) :=
                funext fun v => add_attendee_idem v u.id
              rw [h1]
              simp only [on_reaction_add, hb, he, hf, h2]
              simp [updAssoc_updAssoc, h3]
      | sessionTag sid =>
          cases hl : lookupA sid store.attendance with
          | none =>
              have h1 : on_reaction_add store r u = store := by
                simp [on_reaction_add, hb, he, hf, hl]
              rw [h1, h1]
          | some s =>
              have h1 : on_reaction_add store r u =
                  { store with
                      attendance :=
                        updAssoc sid (fun x => mark_present x u.id) store.attendance } := by
                simp [on_reaction_add, hb, he, hf, hl]
              have h2 : lookupA sid (updAssoc sid (fun x => mark_present x u.id) store.attendance) =
                  some (mark_present s u.id) := by
                rw [lookupA_updAssoc_self, hl]; rfl
              have h3 : (fun v => mark_present (mark_present v u.id) u.id) =
                  (fun v => mark_present v u.id) :=
                funext fun v => mark_present_idem v u.id
              rw [h1]
              simp only [on_reaction_add, hb, he, hf, h2]
              simp [updAssoc_updAssoc, h3]
      | noTag =>
          have h1 : on_reaction_add store r u = store := by
            simp [on_reaction_add, hb, he, hf]
          rw [h1, h1]
    · simp [on_reaction_add, hb, he]

/-- C4: a second identical check-in on an existing event leaves the
attendee set with the same cardinality as a single check-in — processing
the same RSVP reaction twice changes nothing the second time. -/
theorem checkin_twice_same_cardinality (store : Store) (eid : String) (e : Event)
    (u : UserSig) (h : lookupA eid store.events = some e) :
    (lookupA eid (on_reaction_add
        (on_reaction_add store ⟨"✅", .eventTag eid⟩ u) ⟨"✅", .eventTag eid⟩ u).events).map
      (fun ev => ev.attendees.length) =
    (lookupA eid (on_reaction_add store ⟨"✅", .eventTag eid⟩ u).events).map
      (fun ev => ev.attendees.length) := by
  rw [on_reaction_add_idem]

/-- Sample event used to instantiate theorems with hypotheses. -/
def eventW : Event := ⟨"art", "t", "d", ⟨2030, 1, 1, 9, 0, 0⟩, "u0", []⟩

/-- Sample store holding one event, used to instantiate theorems with
hypotheses. -/
def storeW : Store := ⟨[("art_0", eventW)], [], []⟩

/-- C4 witness: the double-check-in cardinality equation evaluated on a
concrete store. -/
theorem checkin_twice_same_cardinality_witness :
    lookupA "art_0" storeW.events = some eventW ∧
    (lookupA "art_0" (on_reaction_add
        (on_reaction_add storeW ⟨"✅", .eventTag "art_0"⟩ ⟨false, "m1"⟩)
        ⟨"✅", .eventTag "art_0"⟩ ⟨false, "m1"⟩).events).map
      (fun ev => ev.attendees.length) =
    (lookupA "art_0" (on_reaction_add storeW ⟨"✅", .eventTag "art_0"⟩ ⟨false, "m1"⟩).events).map
      (fun ev => ev.attendees.length) :=
  ⟨by decide, checkin_twice_same_cardinality storeW "art_0" eventW ⟨false, "m1"⟩ (by decide)⟩

/-- C8: a reaction from a bot account, or with any emoji other than the
check mark, leaves every collection of the store unchanged. -/
theorem reaction_non_checkin_frame (store : Store) (r : ReactionSig) (u : UserSig)
    (h : u.is_bot = true ∨ r.emoji ≠ "✅") :
    on_reaction_add store r u = store := by
  rcases h with h | h
  · simp [on_reaction_add, h]
  · by_cases hb : u.is_bot = true
    · simp [on_reaction_add, hb]
    · simp [on_reaction_add, hb, h]

/-- C8 witness: a wrong-emoji reaction on a concrete store. -/
theorem reaction_non_checkin_frame_witness :
    ((⟨false, "m1"⟩ : UserSig).is_bot = true ∨
      (⟨"❌", .eventTag "art_0"⟩ : ReactionSig).emoji ≠ "✅") ∧
    on_reaction_add storeW ⟨"❌", .eventTag "art_0"⟩ ⟨false, "m1"⟩ = storeW :=
  ⟨Or.inr (by decide),
   reaction_non_checkin_frame storeW ⟨"❌", .eventTag "art_0"⟩ ⟨false, "m1"⟩ (Or.inr (by decide))⟩

/-- C10: a check-in whose correlation token matches an existing event
mutates at most that event: the attendance sessions, the membership
records, and every other event are unchanged. -/
theorem checkin_event_frame (store : Store) (r : ReactionSig) (u : UserSig)
    (eid : String) (e : Event) (hf : r.footer = .eventTag eid)
    (hl : lookupA eid store.events = some e) :
    (on_reaction_add store r u).attendance = store.attendance ∧
    (on_reaction_add store r u).member_clubs = store.member_clubs ∧
    ∀ eid', eid' ≠ eid →
      lookupA eid' (on_reaction_add store r u).events = lookupA eid' store.events := by
  by_cases hb : u.is_bot = true
  · simp [on_reaction_add, hb]
  · by_cases he : r.emoji = "✅"
    · refine ⟨?_, ?_, ?_⟩
      · simp [on_reaction_add, hb, he, hf, hl]
      · simp [on_reaction_add, hb, he, hf, hl]
      · intro eid' hne
        simp only [on_reaction_add, hb, he, hf, hl]
        simp only [Bool.false_eq_true, if_false, if_true]
        exact lookupA_updAssoc_ne eid eid' hne _ store.events
    · simp [on_reaction_add, hb, he]

/-- C10 witness: a check-in on one of two concrete events leaves the
other event, the sessions and the membership records untouched. -/
theorem checkin_event_frame_witness :
    ((⟨"✅", .eventTag "art_0"⟩ : ReactionSig).footer = .eventTag "art_0") ∧
    lookupA "art_0" storeW.events = some eventW ∧
    (on_reaction_add storeW ⟨"✅", .eventTag "art_0"⟩ ⟨false, "m1"⟩).attendance =
      storeW.attendance ∧
    (on_reaction_add storeW ⟨"✅", .eventTag "art_0"⟩ ⟨false, "m1"⟩).member_clubs =
      storeW.member_clubs ∧
    lookupA "science_1" (on_reaction_add storeW ⟨"✅", .eventTag "art_0"⟩ ⟨false, "m1"⟩).events =
      lookupA "science_1" storeW.events :=
  have h := checkin_event_frame storeW ⟨"✅", .eventTag "art_0"⟩ ⟨false, "m1"⟩
    "art_0" eventW rfl (by decide)
  ⟨rfl, by decide, h.1, h.2.1, h.2.2 "science_1" (by decide)⟩

/-- C7 (amended): the reaction handler applies the attendance check-in
to a stored session without consulting time or any closed state — the
session record carries no closed flag and the handler performs no
closed-check — so a check-in on an already-closed session does not error
and mutates the present set exactly as on an open one.  The
present-count rendered at close is computed at close time, so later
check-ins do not alter what was rendered. -/
theorem mark_present_no_closed_check (store : Store) (r : ReactionSig) (u : UserSig)
    (sid : String) (s : Session) (hb : u.is_bot = false) (he : r.emoji = "✅")
    (hf : r.footer = .sessionTag sid) (hl : lookupA sid store.attendance = some s) :
    lookupA sid (on_reaction_add store r u).attendance = some (mark_present s u.id) := by
  simp only [on_reaction_add, hb, he, hf, hl, Bool.false_eq_true, if_false, if_true]
  rw [lookupA_updAssoc_self, hl]
  rfl

/-- Session of sample store `storeC7`: started 2025-01-01 at 10:00 with
a five-minute duration, so it is closed from 10:05 on. -/
def sessW : Session := ⟨"art", ⟨2025, 1, 1, 10, 0, 0⟩, 5, []⟩

/-- Sample store holding one attendance session. -/
def storeC7 : Store := ⟨[], [("art_20250101_100000", sessW)], []⟩

/-- C7 counterexample: at 11:00 the five-minute session started at 10:00
is closed in the only sense the source has (its wall-clock window has
elapsed), yet a check-in reaction still grows the present set from zero
to one member — the claim that the present set is left unchanged fails. -/
theorem mark_present_closed_counterexample :
    sessW.start_time.toSec + sessW.duration * 60 <
      (⟨2025, 1, 1, 11, 0, 0⟩ : DateTime).toSec ∧
    (lookupA "art_20250101_100000" storeC7.attendance).map
      (fun s => s.present.length) = some 0 ∧
    (lookupA "art_20250101_100000"
        (on_reaction_add storeC7 ⟨"✅", .sessionTag "art_20250101_100000"⟩
          ⟨false, "m1"⟩).attendance).map
      (fun s => s.present.length) = some 1 := by
  refine ⟨by decide, by decide, by decide⟩

/-- C7 witness: the amended no-closed-check theorem evaluated on the
concrete closed session. -/
theorem mark_present_no_closed_check_witness :
    lookupA "art_20250101_100000" storeC7.attendance = some sessW ∧
    lookupA "art_20250101_100000"
        (on_reaction_add storeC7 ⟨"✅", .sessionTag "art_20250101_100000"⟩
          ⟨false, "m1"⟩).attendance =
      some (mark_present sessW "m1") :=
  ⟨by decide,
   mark_present_no_closed_check storeC7 ⟨"✅", .sessionTag "art_20250101_100000"⟩
     ⟨false, "m1"⟩ "art_20250101_100000" sessW rfl rfl rfl (by decide)⟩

/-- C2: for every stored event collection, club filter and current time,
`list_events` returns only events scheduled strictly after the current
time, in ascending order of scheduled time, and at most ten of them. -/
theorem list_events_spec (events : List (String × Event)) (club_key : Option String)
    (current_time : DateTime) :
    (∀ p ∈ list_events events club_key current_time,
        current_time.toSec < p.2.datetime.toSec) ∧
    (list_events events club_key current_time).Pairwise timeLE ∧
    (list_events events club_key current_time).length ≤ 10 := by
  have hdef : list_events events club_key current_time =
      (List.insertionSort timeLE (events.filter fun p =>
        decide (current_time.toSec < p.2.datetime.toSec) &&
          (match club_key with
           | none => true
           | some c => p.2.club == lowerStr c))).take 10 := rfl
  refine ⟨?_, ?_, ?_⟩
  · intro p hp
    rw [hdef] at hp
    have h1 := List.take_subset _ _ hp
    rw [List.mem_insertionSort] at h1
    have h2 := (List.mem_filter.mp h1).2
    simp only [Bool.and_eq_true, decide_eq_true_eq] at h2
    exact h2.1
  · rw [hdef]
    exact List.Pairwise.sublist (List.take_sublist _ _)
      (List.sorted_insertionSort timeLE _)
  · rw [hdef, List.length_take]
    exact min_le_left _ _

/-- Empty store, the state before any event or session exists. -/
def emptyStore : Store := ⟨[], [], []⟩

/-- Sample store whose only event belongs to the art club, so the
science club has zero events recorded while the ledger holds one. -/
def storeC3 : Store := ⟨[("art_0", eventW)], [], []⟩

/-- C3 counterexample: with one art event in the ledger and zero science
events, creating a science event yields id `science_1` — the counter is
`len(club_data['events'])`, the total across all clubs, not the per-club
count `0` the claim requires. -/
theorem create_event_id_counterexample :
    (storeC3.events.filter fun p => p.2.club == "science").length = 0 ∧
    (create_event storeC3 "science" "Lab Night" "x" "2030-01-01" "10:00" "u1").2 =
      .ok "science_1" ∧
    ("science_1" : String) ≠ "science_0" := by
  refine ⟨by decide, by decide, by decide⟩

/-- C3 (amended): on success the returned event id is the lower-cased
club key followed by an underscore and the total number of events
currently recorded across all clubs.  On an empty ledger the two
readings agree, so the first science event there is still `science_0`. -/
theorem create_event_id_total_count (store : Store)
    (club_key title description date time creator : String) (info : ClubInfo)
    (hclub : lookupA (lowerStr club_key) CAMPUS_CLUBS = some info)
    (dt : DateTime) (hdt : parseDateTime (date ++ " " ++ time) = some dt) :
    (create_event store club_key title description date time creator).2 =
      .ok (lowerStr club_key ++ "_" ++ toString store.events.length) := by
  simp [create_event, hclub, hdt]

/-- C3 witness: the first event created for the science club in an empty
ledger receives id `science_0`. -/
theorem create_event_id_total_count_witness :
    lookupA (lowerStr "science") CAMPUS_CLUBS = some ⟨"Science Club", "🔬", 0xfeca57⟩ ∧
    parseDateTime ("2030-01-01" ++ " " ++ "10:00") = some ⟨2030, 1, 1, 10, 0, 0⟩ ∧
    (create_event emptyStore "science" "Lab Night" "x" "2030-01-01" "10:00" "u1").2 =
      .ok "science_0" :=
  ⟨by decide, by decide,
   create_event_id_total_count emptyStore "science" "Lab Night" "x" "2030-01-01" "10:00"
     "u1" ⟨"Science Club", "🔬", 0xfeca57⟩ (by decide) ⟨2030, 1, 1, 10, 0, 0⟩ (by decide)⟩

/-- C6: `create_event` rejects an unknown club key with `invalidClub`
and an unparseable date/time with `invalidTimestamp`, and in both
failure cases returns the store unchanged — no event is recorded. -/
theorem create_event_error_cases (store : Store)
    (club_key title description date time creator : String) :
    (lookupA (lowerStr club_key) CAMPUS_CLUBS = none →
      create_event store club_key title description date time creator =
        (store, .error .invalidClub)) ∧
    (∀ info, lookupA (lowerStr club_key) CAMPUS_CLUBS = some info →
      parseDateTime (date ++ " " ++ time) = none →
      create_event store club_key title description date time creator =
        (store, .error .invalidTimestamp)) := by
  constructor
  · intro h
    simp [create_event, h]
  · intro info h1 h2
    simp [create_event, h1, h2]

/-- C6 witness: an unknown club key and a month-13 timestamp, each
rejected with the right error and an untouched store. -/
theorem create_event_error_cases_witness :
    lookupA (lowerStr "chess") CAMPUS_CLUBS = none ∧
    create_event storeC3 "chess" "T" "D" "2030-01-01" "10:00" "u1" =
      (storeC3, .error .invalidClub) ∧
    parseDateTime ("2030-13-01" ++ " " ++ "10:00") = none ∧
    create_event storeC3 "science" "T" "D" "2030-13-01" "10:00" "u1" =
      (storeC3, .error .invalidTimestamp) :=
  ⟨by decide,
   (create_event_error_cases storeC3 "chess" "T" "D" "2030-01-01" "10:00" "u1").1
     (by decide),
   by decide,
   (create_event_error_cases storeC3 "science" "T" "D" "2030-13-01" "10:00" "u1").2
     ⟨"Science Club", "🔬", 0xfeca57⟩ (by decide) (by decide)⟩

/-- C9: starting an attendance session without a duration argument
stores the session with the default duration of five minutes (the
declaration default `duration: int = 5`). -/
theorem start_attendance_default_duration (store : Store) (now : DateTime)
    (club_key : String) (info : ClubInfo)
    (h : lookupA (lowerStr club_key) CAMPUS_CLUBS = some info) :
    start_attendance store now club_key none =
      ({ store with
          attendance := store.attendance ++
            [(lowerStr club_key ++ "_" ++ fmtSessionTime now,
              ⟨lowerStr club_key, now, 5, []⟩)] },
       .ok (lowerStr club_key ++ "_" ++ fmtSessionTime now)) := by
  simp [start_attendance, h]

/-- C9 witness: a session started for the art club with no duration
argument carries duration five. -/
theorem start_attendance_default_duration_witness :
    lookupA (lowerStr "art") CAMPUS_CLUBS = some ⟨"Art Club", "🎨", 0x96ceb4⟩ ∧
    start_attendance emptyStore ⟨2025, 1, 1, 10, 0, 0⟩ "art" none =
      ({ emptyStore with
          attendance := [("art_20250101_100000", ⟨"art", ⟨2025, 1, 1, 10, 0, 0⟩, 5, []⟩)] },
       .ok "art_20250101_100000") :=
  ⟨by decide,
   start_attendance_default_duration emptyStore ⟨2025, 1, 1, 10, 0, 0⟩ "art"
     ⟨"Art Club", "🎨", 0x96ceb4⟩ (by decide)⟩

theorem optMapList_map (g : Jx → Option α) (f : α → Jx) (hg : ∀ a, g (f a) = some a) :
    ∀ l : List α, optMapList g (l.map f) = some l
  | [] => rfl
  | a :: l => by
      simp [optMapList, hg a, optMapList_map g f hg l]

theorem decStrList_encStrList (l : List String) : decStrList (encStrList l) = some l := by
  simp [encStrList, decStrList, optMapList_map decStr Jx.str (fun a => rfl) l]

theorem decDT_encDT (d : DateTime) : decDT (encDT d) = some d := rfl

theorem decEvent_encEvent (e : Event) : decEvent (encEvent e) = some e := by
  show (match decDT (encDT e.datetime), decStrList (encStrList e.attendees) with
        | some dt, some atts =>
            some ⟨e.club, e.title, e.description, dt, e.creator, atts⟩
        | _, _ => none) = some e
  rw [decDT_encDT, decStrList_encStrList]

theorem decSession_encSession (s : Session) : decSession (encSession s) = some s := by
  show (match decDT (encDT s.start_time), decStrList (encStrList s.present) with
        | some st, some pres => some ⟨s.club, st, s.duration, pres⟩
        | _, _ => none) = some s
  rw [decDT_encDT, decStrList_encStrList]

theorem decFields_map (g : Jx → Option α) (f : α → Jx) (hg : ∀ a, g (f a) = some a) :
    ∀ l : List (String × α),
      decFields g (l.map fun p => (p.1, f p.2)) = some l
  | [] => rfl
  | (k, v) :: l => by
      simp [decFields, hg v, decFields_map g f hg l]

theorem decAssoc_encAssoc (g : Jx → Option α) (f : α → Jx) (hg : ∀ a, g (f a) = some a)
    (l : List (String × α)) : decAssoc g (encAssoc f l) = some l := by
  simp [encAssoc, decAssoc, decFields_map g f hg l]

/-- C5: saving the in-memory snapshot and loading it back reproduces a
structurally equal snapshot of the events, the attendance sessions and
the membership records. -/
theorem save_load_round_trip (store : Store) : load_data (save_data store) = some store := by
  have h1 : decAssoc decEvent (encAssoc encEvent store.events) = some store.events :=
    decAssoc_encAssoc decEvent encEvent decEvent_encEvent store.events
  have h2 : decAssoc decSession (encAssoc encSession store.attendance) =
      some store.attendance :=
    decAssoc_encAssoc decSession encSession decSession_encSession store.attendance
  have h3 : decAssoc decStrList (encAssoc encStrList store.member_clubs) =
      some store.member_clubs :=
    decAssoc_encAssoc decStrList encStrList decStrList_encStrList store.member_clubs
  show (match decAssoc decEvent (encAssoc encEvent store.events),
          decAssoc decSession (encAssoc encSession store.attendance),
          decAssoc decStrList (encAssoc encStrList store.member_clubs) with
        | some evs, some sess, some mem => some ⟨evs, sess, mem⟩
        | _, _, _ => none) = some store
  rw [h1, h2, h3]

/-- The event of sample store `storeC1`: a science event scheduled for
2025-01-01 10:45, inside the one-hour reminder window of both sweeps
below. -/
def eventC1 : Event := ⟨"science", "Lab Night", "x", ⟨2025, 1, 1, 10, 45, 0⟩, "u1", []⟩

/-- Sample store for the reminder sweeps. -/
def storeC1 : Store := ⟨[("science_0", eventC1)], [], []⟩

/-- C1: evaluation of the reminder sweep at the failing input.  The
event sits in `(now, now+1h]` at the 10:00 sweep and is notified; the
sweep writes nothing back to the store (the source has no reminder-sent
flag); the next sweep at 10:30 finds the identical store and notifies
the same event again, contradicting the claim that a subsequent sweep
does not re-trigger the reminder. -/
theorem check_reminders_retrigger :
    (check_reminders storeC1 ⟨2025, 1, 1, 10, 0, 0⟩).2 = ["science_0"] ∧
    (check_reminders storeC1 ⟨2025, 1, 1, 10, 0, 0⟩).1 = storeC1 ∧
    (check_reminders storeC1 ⟨2025, 1, 1, 10, 30, 0⟩).2 = ["science_0"] := by
  refine ⟨by decide, by decide, by decide⟩
